import Mathlib

/-!
Verification of the webhook-driven exchange orchestrator of the demo-dpp
repository.  The definitions below are shallow embeddings of the handler
code in runners/aries_agent.py and of request_proof in
runners/agent_container.py.  Webhook payloads become structures carrying
exactly the fields the handlers read; dictionaries become association
lists preserving insertion order; awaited admin REST calls become entries
in an emitted command trace, with their responses supplied by an
environment record; an uncaught Python exception becomes a `some` error
component in the handler result.
-/

namespace DemoDpp

/-- Association-list lookup, modelling Python dict lookup (d.get(k)). -/
def alistLookup {β : Type} (k : String) : List (String × β) → Option β
  | [] => none
  | (k1, v) :: rest => if k = k1 then some v else alistLookup k rest

/-- Association-list store, modelling Python dict assignment (d[k] = v):
updates an existing binding in place or appends a new one, preserving
insertion order as Python dicts do. -/
def alistStore {β : Type} : List (String × β) → String → β → List (String × β)
  | [], k, v => [(k, v)]
  | (k1, v1) :: rest, k, v =>
    if k1 = k then (k, v) :: rest else (k1, v1) :: alistStore rest k v

/-- Per-agent map from exchange id to last observed state (self.cred_state). -/
abbrev CredState := List (String × String)

/-- Exchange State Tracker step, as inlined at the top of
handle_issue_credential (aries_agent.py lines 166-171) and
handle_issue_credential_v2_0 (lines 234-239):
prev_state = self.cred_state.get(id); if prev_state == state: return
(fresh = false, state unchanged); else self.cred_state[id] = state
(fresh = true). -/
def trackerApply (st : CredState) (exchangeId newState : String) :
    CredState × Bool :=
  let prev_state := alistLookup exchangeId st
  if prev_state = some newState then (st, false)
  else (alistStore st exchangeId newState, true)

theorem alistLookup_store_self {β : Type} (st : List (String × β)) (k : String) (v : β) :
    alistLookup k (alistStore st k v) = some v := by
  induction st with
  | nil => simp [alistStore, alistLookup]
  | cons hd tl ih =>
    obtain ⟨k1, v1⟩ := hd
    by_cases h : k1 = k
    · simp [alistStore, alistLookup, h]
    · simp [alistStore, alistLookup, h, Ne.symm h, ih]

theorem trackerApply_fst_lookup (st : CredState) (exchangeId newState : String) :
    alistLookup exchangeId (trackerApply st exchangeId newState).1 = some newState := by
  unfold trackerApply
  by_cases h : alistLookup exchangeId st = some newState
  · simp [h]
  · simp [h, alistLookup_store_self]

theorem trackerApply_dup (st : CredState) (exchangeId newState : String)
    (h : alistLookup exchangeId st = some newState) :
    trackerApply st exchangeId newState = (st, false) := by
  simp [trackerApply, h]

/-- One wallet credential row as returned by GET credentials for a legacy
presentation exchange: referent is cred_info.referent (the wallet
credential id), timestamp is int(cred_info.attrs.timestamp), and
presentation_referents lists the request referents the row satisfies. -/
structure CredRow where
  referent : String
  timestamp : Int
  presentation_referents : List String
deriving DecidableEq, Repr

/-- Stable descending insertion used to model Python sorted(..., reverse=True):
a row is placed before the first row whose key is less than or equal to its
own, so among equal keys earlier input rows stay first (Python sorted is
stable and reverse=True keeps the original order of equal keys). -/
def insertDesc (row : CredRow) : List CredRow → List CredRow
  | [] => [row]
  | r :: rs =>
    if r.timestamp ≤ row.timestamp then row :: r :: rs
    else r :: insertDesc row rs

/-- sorted(credentials, key=lambda c: int(c.cred_info.attrs.timestamp),
reverse=True) from handle_present_proof. -/
def sortByTimestampDesc (credentials : List CredRow) : List CredRow :=
  credentials.foldr insertDesc []

/-- Inner loop of the referent grouping: for referent in
row.presentation_referents: if referent not in acc: acc[referent] = row. -/
def groupRowG {ρ : Type} (refts : ρ → List String) (row : ρ)
    (acc : List (String × ρ)) : List (String × ρ) :=
  (refts row).foldl
    (fun acc2 reft =>
      if (alistLookup reft acc2).isSome then acc2 else acc2 ++ [(reft, row)])
    acc

/-- Grouping of candidate rows by referent, first row seen per referent wins
(credentials_by_reft in handle_present_proof / creds_by_reft in
handle_present_proof_v2_0). -/
def groupByReftG {ρ : Type} (refts : ρ → List String) (rows : List ρ) :
    List (String × ρ) :=
  rows.foldl (fun acc row => groupRowG refts row acc) []

/-- Grouping instantiated at legacy credential rows. -/
def groupByReft (rows : List CredRow) : List (String × CredRow) :=
  groupByReftG CredRow.presentation_referents rows

/-- Attribute loop of the Selection Algorithm, shared verbatim between
handle_present_proof (lines 340-351) and handle_present_proof_v2_0
(lines 437-448): iterate the requested attribute referents threading
revealed_flag (initially false); a matched referent is recorded as
(referent, cred_id, revealed_flag) and the flag is then set to true; an
unmatched referent is recorded in self_attested with a placeholder
literal. -/
def buildAttrsG {ρ : Type} (credId : ρ → String) (byReft : List (String × ρ)) :
    List String → Bool → List (String × String × Bool) × List (String × String)
  | [], _ => ([], [])
  | reft :: rest, revealed_flag =>
    match alistLookup reft byReft with
    | some row =>
      let p := buildAttrsG credId byReft rest true
      ((reft, credId row, revealed_flag) :: p.1, p.2)
    | none =>
      let p := buildAttrsG credId byReft rest revealed_flag
      (p.1, (reft, "my self-attested value") :: p.2)

/-- Predicate loop of the Selection Algorithm: a matched predicate referent
is recorded with the matching credential id, an unmatched one is dropped. -/
def buildPredsG {ρ : Type} (credId : ρ → String) (byReft : List (String × ρ))
    (reqPreds : List String) : List (String × String) :=
  reqPreds.filterMap
    (fun reft => (alistLookup reft byReft).map (fun row => (reft, credId row)))

/-- Body sent with the send-presentation admin call (the request dict built
in handle_present_proof lines 362-366). -/
structure IndyPresSpec where
  requested_predicates : List (String × String)
  requested_attributes : List (String × String × Bool)
  self_attested_attributes : List (String × String)
deriving DecidableEq, Repr

/-- Record ids chosen for the linked-data section: input descriptor id
mapped to the bound wallet record ids. -/
abbrev DifRecordIds := List (String × List String)

/-- Admin REST calls the handlers can attempt, abstracted from method and
path; payloads keep exactly the data the handler computes into them. -/
inductive Command where
  | getCredentials (presExId : String)
  | sendPresentation (presExId : String) (request : IndyPresSpec)
  | verifyPresentation (presExId : String)
  | sendCredRequest (credExId : String)
  | getCredential (credId : String)
  | issueCredential (credExId : String) (previewAttrs : List (String × String))
  | issueCredentialV2 (credExId : String)
  | sendCredRequestV2 (credExId : String)
  | createHolderKey
  | sendCredRequestV2WithDid (credExId : String) (holder_did : String)
  | getCredentialsV2 (presExId : String)
  | sendPresentationV2 (presExId : String) (indyPart : Option IndyPresSpec)
      (difPart : Option DifRecordIds)
  | verifyPresentationV2 (presExId : String)
deriving DecidableEq, Repr

/-- Requested referent names of an attribute-based presentation request:
the handlers iterate only the keys of requested_attributes and
requested_predicates. -/
structure PresReqIndy where
  requested_attributes : List String
  requested_predicates : List String
deriving DecidableEq, Repr

/-- Fields of a present_proof webhook payload read by handle_present_proof. -/
structure PresentProofMsg where
  state : String
  presentation_exchange_id : String
  presentation_request : PresReqIndy
deriving DecidableEq, Repr

/-- Environment of handle_present_proof: the wallet rows returned by the
GET credentials call, and whether either call in the try block fails with
a transport error (aiohttp ClientError). -/
structure PresEnv where
  credentials : List CredRow
  getFails : Bool
  sendFails : Bool
deriving Repr

/-- Attribute-based selection as performed inside handle_present_proof
(lines 329-366): sort by timestamp descending, group by referent
first-seen-wins, then build the revealed / self-attested / predicate
maps. -/
def selectIndy (credentials : List CredRow) (preq : PresReqIndy) : IndyPresSpec :=
  let credentials_by_reft := groupByReft (sortByTimestampDesc credentials)
  let p := buildAttrsG CredRow.referent credentials_by_reft
    preq.requested_attributes false
  let predicates := buildPredsG CredRow.referent credentials_by_reft
    preq.requested_predicates
  ⟨predicates, p.1, p.2⟩

/-- handle_present_proof (aries_agent.py lines 301-389).  The result is
(cred_state, attempted admin calls in order, uncaught exception).  The
handler never reads or writes self.cred_state, so the state passes
through unchanged.  In the request_received branch both admin calls sit
inside try/except ClientError: pass, so a failing GET ends the handler
after the one attempted call and a failing send-presentation POST changes
nothing observable; neither failure is re-raised or retried. -/
def handle_present_proof (env : PresEnv) (st : CredState) (m : PresentProofMsg) :
    CredState × List Command × Option String :=
  if m.state = "request_received" then
    if env.getFails then
      (st, [Command.getCredentials m.presentation_exchange_id], none)
    else
      let request := selectIndy env.credentials m.presentation_request
      let calls := [Command.getCredentials m.presentation_exchange_id,
                    Command.sendPresentation m.presentation_exchange_id request]
      if env.sendFails then (st, calls, none)
      else (st, calls, none)
  else if m.state = "presentation_received" then
    (st, [Command.verifyPresentation m.presentation_exchange_id], none)
  else
    (st, [], none)

/-- Fields of an issue_credential webhook payload read by
handle_issue_credential; credential_id and credential_definition_id are
optional because a missing key raises KeyError at the point of use. -/
structure IssueCredMsg where
  state : String
  credential_exchange_id : String
  credential_id : Option String
  credential_definition_id : Option String
deriving DecidableEq, Repr

/-- Environment of handle_issue_credential: self.cred_attrs (prepared
attribute values per credential definition id) and whether the issue POST
fails with a transport error. -/
structure IssueEnv where
  cred_attrs : List (String × List (String × String))
  issueFails : Bool
deriving Repr

/-- handle_issue_credential (aries_agent.py lines 165-231).  The tracker
step runs first; on a duplicate state the handler returns with no calls.
In the request_received branch the issue POST sits inside
try/except ClientError: pass, so a transport failure leaves the stored
state, the attempted-call trace and the absence of a raised error exactly
as in the success case. -/
def handle_issue_credential (env : IssueEnv) (st : CredState) (m : IssueCredMsg) :
    CredState × List Command × Option String :=
  let ta := trackerApply st m.credential_exchange_id m.state
  if ta.2 then
    if m.state = "offer_received" then
      (ta.1, [Command.sendCredRequest m.credential_exchange_id], none)
    else if m.state = "credential_acked" then
      match m.credential_id with
      | none => (ta.1, [], some "KeyError: credential_id")
      | some cred_id => (ta.1, [Command.getCredential cred_id], none)
    else if m.state = "request_received" then
      match m.credential_definition_id with
      | none => (ta.1, [], some "KeyError: credential_definition_id")
      | some cred_def_id =>
        match alistLookup cred_def_id env.cred_attrs with
        | none => (ta.1, [], some "KeyError: cred_attrs")
        | some cred_attrs =>
          let call := Command.issueCredential m.credential_exchange_id cred_attrs
          if env.issueFails then (ta.1, [call], none)
          else (ta.1, [call], none)
    else
      (ta.1, [], none)
  else
    (ta.1, [], none)

/-- Fields of an issue_credential_v2_0 webhook payload read by
handle_issue_credential_v2_0; the two flags record which format key is
present under by_format.cred_offer. -/
structure IssueV2Msg where
  state : String
  cred_ex_id : String
  offer_has_indy : Bool
  offer_has_ld_proof : Bool
deriving DecidableEq, Repr

/-- Environment of handle_issue_credential_v2_0: the did returned by the
wallet key-creation call. -/
structure IssueV2Env where
  holder_did : String
deriving Repr

/-- handle_issue_credential_v2_0 (aries_agent.py lines 233-273).  The
tracker step runs first; none of the admin calls here is guarded by a
try/except. -/
def handle_issue_credential_v2_0 (env : IssueV2Env) (st : CredState)
    (m : IssueV2Msg) : CredState × List Command × Option String :=
  let ta := trackerApply st m.cred_ex_id m.state
  if ta.2 then
    if m.state = "request-received" then
      (ta.1, [Command.issueCredentialV2 m.cred_ex_id], none)
    else if m.state = "offer-received" then
      if m.offer_has_indy then
        (ta.1, [Command.sendCredRequestV2 m.cred_ex_id], none)
      else if m.offer_has_ld_proof then
        (ta.1, [Command.createHolderKey,
                Command.sendCredRequestV2WithDid m.cred_ex_id env.holder_did],
         none)
      else
        (ta.1, [], none)
    else
      (ta.1, [], none)
  else
    (ta.1, [], none)

/-- Boolean substring test on character lists: true when the needle occurs
contiguously in the haystack (an empty needle always occurs). -/
def charsContain (needle : List Char) : List Char → Bool
  | [] => needle.isEmpty
  | c :: rest => needle.isPrefixOf (c :: rest) || charsContain needle rest

/-- Python substring membership (needle in hay) on strings. -/
def substrOf (needle hay : String) : Bool :=
  charsContain needle.toList hay.toList

/-- Inner loop of check_input_descriptor_record_id over the record types:
for record_type in record.type: if record_type in uri: result = True;
break; result = False.  The carried result survives only when the type
list is empty; otherwise a first match yields true and exhausting the
list yields false. -/
def innerScanTypes (uri : String) : List String → Bool → Bool
  | [], result => result
  | record_type :: rest, _ =>
    if substrOf record_type uri then true
    else innerScanTypes uri rest false

/-- check_input_descriptor_record_id (aries_agent.py lines 641-652):
result = False; for uri in input_descriptor_schema_uri: (inner loop over
record.type).  There is no break in the outer loop, so each uri iteration
overwrites the carried result. -/
def check_input_descriptor_record_id (input_descriptor_schema_uri : List String)
    (recordType : List String) : Bool :=
  input_descriptor_schema_uri.foldl
    (fun result uri => innerScanTypes uri recordType result) false

/-- One linked-data wallet record as returned by GET credentials:
record_id, the type tag list, and the issuance date string. -/
structure DifRecord where
  record_id : String
  type : List String
  issuanceDate : String
deriving DecidableEq, Repr

/-- Lexicographic comparison of character lists, modelling the Python
string comparison used as sort key for issuanceDate. -/
def charsLe : List Char → List Char → Bool
  | [], _ => true
  | _ :: _, [] => false
  | a :: as, b :: bs =>
    if a < b then true else if b < a then false else charsLe as bs

/-- Stable descending insertion by issuanceDate, modelling
sorted(creds, key=lambda c: c.issuanceDate, reverse=True). -/
def insertDescDate (rec : DifRecord) : List DifRecord → List DifRecord
  | [] => [rec]
  | r :: rs =>
    if charsLe r.issuanceDate.toList rec.issuanceDate.toList then rec :: r :: rs
    else r :: insertDescDate rec rs

/-- Sort of the linked-data candidates, issuance date descending. -/
def sortByIssuanceDateDesc (recs : List DifRecord) : List DifRecord :=
  recs.foldr insertDescDate []

/-- One input descriptor of the dif presentation request: its id and the
uri field of each element of its schema list (collected into
input_descriptor_schema_uri by the handler). -/
structure InputDescriptor where
  id : String
  schema_uris : List String
deriving DecidableEq, Repr

/-- Binding loop of the dif section (aries_agent.py lines 494-511): for
each input descriptor, the first record accepted by
check_input_descriptor_record_id is bound, and dif_request.record_ids
gets descriptor.id mapped to the one-element record id list. -/
def difRecordIds (descriptors : List InputDescriptor)
    (records : List DifRecord) : DifRecordIds :=
  descriptors.foldl
    (fun acc input_descriptor =>
      match records.find?
          (fun record =>
            check_input_descriptor_record_id input_descriptor.schema_uris
              record.type) with
      | some record => alistStore acc input_descriptor.id [record.record_id]
      | none => acc)
    []

/-- One wallet credential row in the multi-format handler; the timestamp
attribute may be absent there, hence the option. -/
structure CredRowV2 where
  referent : String
  timestamp : Option Int
  presentation_referents : List String
deriving DecidableEq, Repr

/-- Stable descending insertion for v2 rows.  The sort is only reached
when the first filtered row carries a timestamp; a row without one would
make the Python key function raise, which this embedding does not model,
so absent timestamps sort as 0. -/
def insertDescV2 (row : CredRowV2) : List CredRowV2 → List CredRowV2
  | [] => [row]
  | r :: rs =>
    if r.timestamp.getD 0 ≤ row.timestamp.getD 0 then row :: r :: rs
    else r :: insertDescV2 row rs

/-- Conditional timestamp sort of the v2 indy section. -/
def sortByTimestampDescV2 (creds : List CredRowV2) : List CredRowV2 :=
  creds.foldr insertDescV2 []

/-- Selection maps built from an already-sorted v2 candidate list
(handle_present_proof_v2_0 lines 431-465): group by referent
first-seen-wins, then the shared attribute and predicate loops. -/
def selectIndyFromSortedV2 (sorted_creds : List CredRowV2) (preq : PresReqIndy) :
    IndyPresSpec :=
  let creds_by_reft := groupByReftG CredRowV2.presentation_referents sorted_creds
  let p := buildAttrsG CredRowV2.referent creds_by_reft
    preq.requested_attributes false
  let predicates := buildPredsG CredRowV2.referent creds_by_reft
    preq.requested_predicates
  ⟨predicates, p.1, p.2⟩

/-- One wallet item returned by the v2 GET credentials call: an
attribute-based row (has cred_info) or a linked-data record (has
issuanceDate); the two sections filter by the respective key. -/
inductive WalletItemV2 where
  | indy (row : CredRowV2)
  | dif (rec : DifRecord)
deriving DecidableEq, Repr

/-- Projection selecting the attribute-based wallet items
(x for x in creds if cred_info in x). -/
def walletIndyRow : WalletItemV2 → Option CredRowV2
  | WalletItemV2.indy row => some row
  | WalletItemV2.dif _ => none

/-- Projection selecting the linked-data wallet items
(x for x in creds if issuanceDate in x). -/
def walletDifRec : WalletItemV2 → Option DifRecord
  | WalletItemV2.dif rec => some rec
  | WalletItemV2.indy _ => none

/-- Fields of a present_proof_v2_0 webhook payload read by
handle_present_proof_v2_0: state, exchange id and the two optional
by_format.pres_request entries. -/
structure PresV2Msg where
  state : String
  pres_ex_id : String
  pres_request_indy : Option PresReqIndy
  pres_request_dif : Option (List InputDescriptor)
deriving DecidableEq, Repr

/-- Environment of handle_present_proof_v2_0: the wallet items returned
by GET credentials and whether that GET fails with a transport error. -/
structure PresV2Env where
  wallet : List WalletItemV2
  getFails : Bool
deriving Repr

/-- Indy section of handle_present_proof_v2_0 (lines 408-468), landing in
the request dict under the indy key.  creds[0] on a nonempty wallet whose
indy filter is empty raises IndexError - an exception the except
ClientError clause does not catch.  The conditional sort mirrors the
timestamp presence test on the first filtered row. -/
def buildIndySectionV2 (wallet : List WalletItemV2) (preq : PresReqIndy) :
    Option IndyPresSpec × Option String :=
  match wallet with
  | [] =>
    (some (selectIndyFromSortedV2 [] preq), none)
  | _ :: _ =>
    match wallet.filterMap walletIndyRow with
    | [] => (none, some "IndexError")
    | first :: more =>
      let creds := first :: more
      let sorted_creds :=
        if first.timestamp.isSome then sortByTimestampDescV2 creds else creds
      (some (selectIndyFromSortedV2 sorted_creds preq), none)

/-- Dif section of handle_present_proof_v2_0 (lines 470-513), landing in
the request dict under the dif key as the record_ids mapping. -/
def buildDifSectionV2 (wallet : List WalletItemV2)
    (descriptors : List InputDescriptor) : DifRecordIds :=
  match wallet with
  | [] => difRecordIds descriptors []
  | _ :: _ =>
    difRecordIds descriptors
      (sortByIssuanceDateDesc (wallet.filterMap walletDifRec))

/-- handle_present_proof_v2_0 (aries_agent.py lines 391-556).  A
request-received event with neither format raises before any admin call;
each format section runs inside its own try/except ClientError: pass, a
caught failure leaving the request dict without that section; the final
send-presentation POST is outside any try. -/
def handle_present_proof_v2_0 (env : PresV2Env) (m : PresV2Msg) :
    List Command × Option String :=
  if m.state = "request-received" then
    match m.pres_request_indy, m.pres_request_dif with
    | none, none => ([], some "Invalid presentation request received")
    | indyOpt, difOpt =>
      let indyStep : List Command × Option IndyPresSpec × Option String :=
        match indyOpt with
        | none => ([], none, none)
        | some preq =>
          if env.getFails then
            ([Command.getCredentialsV2 m.pres_ex_id], none, none)
          else
            let r := buildIndySectionV2 env.wallet preq
            ([Command.getCredentialsV2 m.pres_ex_id], r.1, r.2)
      match indyStep with
      | (calls1, _, some err) => (calls1, some err)
      | (calls1, indyPart, none) =>
        let difStep : List Command × Option DifRecordIds :=
          match difOpt with
          | none => ([], none)
          | some descriptors =>
            if env.getFails then
              ([Command.getCredentialsV2 m.pres_ex_id], none)
            else
              ([Command.getCredentialsV2 m.pres_ex_id],
               some (buildDifSectionV2 env.wallet descriptors))
        (calls1 ++ difStep.1 ++
           [Command.sendPresentationV2 m.pres_ex_id indyPart difStep.2],
         none)
  else if m.state = "presentation-received" then
    ([Command.verifyPresentationV2 m.pres_ex_id], none)
  else
    ([], none)

/-- State of an asyncio future restricted to what the agent uses: pending
or resolved with a boolean result. -/
abbrev Fut := Option Bool

/-- asyncio.Future.set_result: raises InvalidStateError when the future is
already done, otherwise resolves it. -/
def setFutResult (f : Fut) (v : Bool) : Except String Fut :=
  if f.isSome then Except.error "InvalidStateError" else Except.ok (some v)

/-- Connection-related agent state: self.connection_id and
self._connection_ready (absent for the mediator connection, otherwise a
future). -/
structure ConnState where
  connection_id : Option String
  connection_ready : Option Fut
deriving DecidableEq, Repr

/-- Fields of a connections webhook payload read by handle_connections. -/
structure ConnMsg where
  connection_id : String
  state : Option String
  rfc23_state : String
deriving DecidableEq, Repr

/-- Actions taken in the endorser-role branch of handle_connections:
an asyncio.sleep with its duration in seconds, or the set-endorser-role
admin POST with its transaction_my_job parameter. -/
inductive ConnAction where
  | sleep (seconds : ℚ)
  | setEndorserRole (connection_id : Option String) (transaction_my_job : String)
deriving DecidableEq, Repr

/-- Endorser-role branch of handle_connections (lines 145-163): the author
role sleeps 2.0 seconds and posts TRANSACTION_AUTHOR, the endorser role
sleeps 1.0 second and posts TRANSACTION_ENDORSER, any other configured
role posts the job None with no sleep; with no role configured
(self.endorser_role falsy) nothing happens. -/
def endorserActions (connection_id : Option String)
    (endorser_role : Option String) : List ConnAction :=
  match endorser_role with
  | none => []
  | some role =>
    if role = "author" then
      [ConnAction.sleep 2,
       ConnAction.setEndorserRole connection_id "TRANSACTION_AUTHOR"]
    else if role = "endorser" then
      [ConnAction.sleep 1,
       ConnAction.setEndorserRole connection_id "TRANSACTION_ENDORSER"]
    else
      [ConnAction.setEndorserRole connection_id "None"]

/-- handle_connections (aries_agent.py lines 121-163): return early when
self._connection_ready is None; record the connection id on the inviter
(state invitation) or invitee (rfc23_state invitation-received with no id
yet) path; on a terminal rfc23_state for the own connection, resolve the
readiness future behind the not-done guard and run the endorser-role
branch. -/
def handle_connections (endorser_role : Option String) (st : ConnState)
    (m : ConnMsg) : Except String (ConnState × List ConnAction) :=
  match st.connection_ready with
  | none => Except.ok (st, [])
  | some fut =>
    let st1 := if m.state = some "invitation"
      then { st with connection_id := some m.connection_id } else st
    let st2 := if st1.connection_id = none ∧ m.rfc23_state = "invitation-received"
      then { st1 with connection_id := some m.connection_id } else st1
    if st2.connection_id = some m.connection_id then
      if m.rfc23_state = "completed" ∨ m.rfc23_state = "response-sent" then
        match (if fut.isSome then Except.ok fut else setFutResult fut true) with
        | Except.error e => Except.error e
        | Except.ok fut2 =>
          Except.ok ({ st2 with connection_ready := some fut2 },
                     endorserActions st2.connection_id endorser_role)
      else Except.ok (st2, [])
    else Except.ok (st2, [])

/-- handle_connection_reuse (aries_agent.py lines 107-112): when the
readiness future is not yet done, record the connection id and resolve
it; when it is done, do nothing.  Calling done() on an absent future
raises AttributeError. -/
def handle_connection_reuse (st : ConnState) (m : ConnMsg) :
    Except String ConnState :=
  match st.connection_ready with
  | none => Except.error "AttributeError"
  | some fut =>
    if fut.isSome then Except.ok st
    else
      match setFutResult fut true with
      | Except.error e => Except.error e
      | Except.ok fut2 =>
        Except.ok { connection_id := some m.connection_id,
                    connection_ready := some fut2 }

/-- handle_connection_reuse_accepted (aries_agent.py lines 114-119), whose
body is identical to handle_connection_reuse. -/
def handle_connection_reuse_accepted (st : ConnState) (m : ConnMsg) :
    Except String ConnState :=
  match st.connection_ready with
  | none => Except.error "AttributeError"
  | some fut =>
    if fut.isSome then Except.ok st
    else
      match setFutResult fut true with
      | Except.error e => Except.error e
      | Except.ok fut2 =>
        Except.ok { connection_id := some m.connection_id,
                    connection_ready := some fut2 }

/-- Non-revocation interval as built by request_proof: the to field set to
int(time.time()). -/
structure NonRevokedInterval where
  toTime : Nat
deriving DecidableEq, Repr

/-- One requested attribute constraint of an inbound proof request; the
fields other than non_revoked are opaque to request_proof and carried
through untouched. -/
structure AttrConstraint where
  rest : List String
  non_revoked : Option NonRevokedInterval
deriving DecidableEq, Repr

/-- One requested predicate constraint of an inbound proof request. -/
structure PredConstraint where
  rest : List String
  non_revoked : Option NonRevokedInterval
deriving DecidableEq, Repr

/-- Inbound proof request handed to request_proof. -/
structure ProofRequestIn where
  name : Option String
  version : Option String
  requested_attributes : List (String × AttrConstraint)
  requested_predicates : List (String × PredConstraint)
  non_revoked : Option NonRevokedInterval
deriving DecidableEq, Repr

/-- Outbound indy_proof_request built by request_proof. -/
structure IndyProofRequest where
  name : String
  version : String
  requested_attributes : List (String × AttrConstraint)
  requested_predicates : List (String × PredConstraint)
  non_revoked : Option NonRevokedInterval
deriving DecidableEq, Repr

/-- Indy branch of request_proof (agent_container.py lines 333-393).  With
revocation enabled, every referent that carries a non_revoked field has it
replaced by the fresh interval, and the interval is attached at top level
when the inbound request carried one or when none was supplied anywhere
and the caller did not require explicit placement.  With revocation
disabled, every non_revoked field is deleted from the inbound dicts; the
outbound request shares those dicts (the requested_attributes and
requested_predicates entries are the same objects), so the deletion
strips the outbound request too, and the top-level interval is never
copied into it. -/
def request_proof_indy (revocation : Bool) (now : Nat)
    (explicit_revoc_required : Bool) (proof_request : ProofRequestIn) :
    IndyProofRequest :=
  let base : IndyProofRequest :=
    { name := proof_request.name.getD "Proof of stuff"
      version := proof_request.version.getD "1.0"
      requested_attributes := proof_request.requested_attributes
      requested_predicates := proof_request.requested_predicates
      non_revoked := none }
  if revocation then
    let non_revoked : NonRevokedInterval := ⟨now⟩
    let attrs := proof_request.requested_attributes.map
      (fun p => if p.2.non_revoked.isSome
        then (p.1, { p.2 with non_revoked := some non_revoked }) else p)
    let preds := proof_request.requested_predicates.map
      (fun p => if p.2.non_revoked.isSome
        then (p.1, { p.2 with non_revoked := some non_revoked }) else p)
    let non_revoked_supplied :=
      proof_request.non_revoked.isSome
        || proof_request.requested_attributes.any (fun p => p.2.non_revoked.isSome)
        || proof_request.requested_predicates.any (fun p => p.2.non_revoked.isSome)
    let top :=
      if proof_request.non_revoked.isSome then some non_revoked
      else if !non_revoked_supplied && !explicit_revoc_required then
        some non_revoked
      else none
    { base with
      requested_attributes := attrs
      requested_predicates := preds
      non_revoked := top }
  else
    { base with
      requested_attributes := proof_request.requested_attributes.map
        (fun p => (p.1, { p.2 with non_revoked := none }))
      requested_predicates := proof_request.requested_predicates.map
        (fun p => (p.1, { p.2 with non_revoked := none })) }

/-- request_proof (agent_container.py lines 330-401): the indy credential
type builds and sends the outbound request, the json-ld type sends
nothing, any other type raises.  The result pairs the outbound request,
when one is produced, with an uncaught exception. -/
def request_proof (cred_type : String) (revocation : Bool) (now : Nat)
    (explicit_revoc_required : Bool) (proof_request : ProofRequestIn) :
    Option IndyProofRequest × Option String :=
  if cred_type = "indy" then
    (some (request_proof_indy revocation now explicit_revoc_required
      proof_request), none)
  else if cred_type = "json-ld" then
    (none, none)
  else
    (none, some "Invalid credential type")

/-- Outbound request with no non-revocation interval field anywhere: none
at top level, none on any requested attribute, none on any requested
predicate. -/
def hasNoInterval (r : IndyProofRequest) : Bool :=
  r.non_revoked.isNone
    && r.requested_attributes.all (fun p => p.2.non_revoked.isNone)
    && r.requested_predicates.all (fun p => p.2.non_revoked.isNone)

theorem buildAttrsG_keys {ρ : Type} (credId : ρ → String)
    (byReft : List (String × ρ)) (req : List String) (flag : Bool) :
    ((buildAttrsG credId byReft req flag).1).map (fun x => x.1)
      = req.filter (fun r => (alistLookup r byReft).isSome) := by
  induction req generalizing flag with
  | nil => simp [buildAttrsG]
  | cons r rest ih =>
    cases h : alistLookup r byReft with
    | none => simp [buildAttrsG, h, ih]
    | some row => simp [buildAttrsG, h, ih]

theorem buildAttrsG_self_attested {ρ : Type} (credId : ρ → String)
    (byReft : List (String × ρ)) (req : List String) (flag : Bool) :
    (buildAttrsG credId byReft req flag).2
      = (req.filter (fun r => (alistLookup r byReft).isNone)).map
          (fun r => (r, "my self-attested value")) := by
  induction req generalizing flag with
  | nil => simp [buildAttrsG]
  | cons r rest ih =>
    cases h : alistLookup r byReft with
    | none => simp [buildAttrsG, h, ih]
    | some row => simp [buildAttrsG, h, ih]

theorem buildAttrsG_true_flags {ρ : Type} (credId : ρ → String)
    (byReft : List (String × ρ)) (req : List String) :
    ∀ x ∈ (buildAttrsG credId byReft req true).1, x.2.2 = true := by
  induction req with
  | nil => simp [buildAttrsG]
  | cons r rest ih =>
    cases h : alistLookup r byReft with
    | none =>
      intro x hx
      simp only [buildAttrsG, h] at hx
      exact ih x hx
    | some row =>
      intro x hx
      simp only [buildAttrsG, h, List.mem_cons] at hx
      rcases hx with rfl | hx
      · rfl
      · exact ih x hx

theorem buildAttrsG_head_flag {ρ : Type} (credId : ρ → String)
    (byReft : List (String × ρ)) (req : List String) (flag : Bool) :
    ∀ x ∈ ((buildAttrsG credId byReft req flag).1).head?, x.2.2 = flag := by
  induction req generalizing flag with
  | nil => simp [buildAttrsG]
  | cons r rest ih =>
    cases h : alistLookup r byReft with
    | none =>
      intro x hx
      simp only [buildAttrsG, h] at hx
      exact ih flag x hx
    | some row =>
      intro x hx
      simp only [buildAttrsG, h, List.head?_cons, Option.mem_def,
        Option.some.injEq] at hx
      subst hx
      rfl

theorem buildAttrsG_tail_flags {ρ : Type} (credId : ρ → String)
    (byReft : List (String × ρ)) (req : List String) (flag : Bool) :
    ∀ x ∈ ((buildAttrsG credId byReft req flag).1).tail, x.2.2 = true := by
  induction req generalizing flag with
  | nil => simp [buildAttrsG]
  | cons r rest ih =>
    cases h : alistLookup r byReft with
    | none =>
      intro x hx
      simp only [buildAttrsG, h] at hx
      exact ih flag x hx
    | some row =>
      intro x hx
      simp only [buildAttrsG, h, List.tail_cons] at hx
      exact buildAttrsG_true_flags credId byReft rest x hx

theorem innerScanTypes_false (u : String) (types : List String) :
    innerScanTypes u types false = types.any (fun t => substrOf t u) := by
  induction types with
  | nil => simp [innerScanTypes]
  | cons t ts ih => by_cases h : substrOf t u <;> simp [innerScanTypes, h, ih]

theorem innerScanTypes_eq (u : String) (types : List String) (r : Bool) :
    innerScanTypes u types r
      = if types.isEmpty then r else types.any (fun t => substrOf t u) := by
  cases types with
  | nil => simp [innerScanTypes]
  | cons t ts =>
    by_cases h : substrOf t u <;>
      simp [innerScanTypes, h, innerScanTypes_false]

theorem checkFold_eq (types : List String) (uris : List String) (r : Bool) :
    uris.foldl (fun result uri => innerScanTypes uri types result) r
      = match uris.getLast? with
        | none => r
        | some u => if types.isEmpty then r
            else types.any (fun t => substrOf t u) := by
  induction uris generalizing r with
  | nil => rfl
  | cons u rest ih =>
    cases rest with
    | nil => simp [innerScanTypes_eq]
    | cons v rest2 =>
      rcases hgl : (v :: rest2).getLast? with _ | u2
      · exact absurd hgl (by simp)
      · simp only [List.foldl_cons, ih (innerScanTypes u types r),
          List.getLast?_cons_cons, hgl]
        by_cases h : types.isEmpty
        · have : types = [] := by simpa using h
          subst this
          simp [innerScanTypes]
        · simp [h]

theorem handle_issue_credential_fst (env : IssueEnv) (st : CredState)
    (m : IssueCredMsg) :
    (handle_issue_credential env st m).1
      = (trackerApply st m.credential_exchange_id m.state).1 := by
  rcases hta : trackerApply st m.credential_exchange_id m.state with ⟨st1, fresh⟩
  simp only [handle_issue_credential, hta]
  cases fresh
  · rfl
  · simp only [if_true]
    split
    · rfl
    · split
      · rcases m.credential_id with _ | cid <;> rfl
      · split
        · rcases hcd : m.credential_definition_id with _ | cdi
          · rfl
          · cases halk : alistLookup cdi env.cred_attrs with
            | none => simp [halk]
            | some attrs => by_cases hf : env.issueFails <;> simp [halk, hf]
        · rfl

theorem handle_issue_credential_v2_0_fst (env : IssueV2Env) (st : CredState)
    (m : IssueV2Msg) :
    (handle_issue_credential_v2_0 env st m).1
      = (trackerApply st m.cred_ex_id m.state).1 := by
  rcases hta : trackerApply st m.cred_ex_id m.state with ⟨st1, fresh⟩
  simp only [handle_issue_credential_v2_0, hta]
  cases fresh
  · rfl
  · simp only [if_true]
    split
    · rfl
    · split
      · by_cases h1 : m.offer_has_indy <;> by_cases h2 : m.offer_has_ld_proof <;>
          simp [h1, h2]
      · rfl

/-- C1: the Exchange State Tracker apply step, for every exchangeId and
newState, stores newState and reports fresh when no state is stored;
reports not-fresh with the state map unchanged when the stored state
equals newState, in which case the issue-credential handlers return with
no commands and no error (no side effects); and stores newState and
reports fresh when the stored state differs, with no further ordering
constraint. -/
theorem C1_tracker_apply_contract (st : CredState) (exchangeId newState : String) :
    (alistLookup exchangeId st = none →
      trackerApply st exchangeId newState
        = (alistStore st exchangeId newState, true))
  ∧ (alistLookup exchangeId st = some newState →
      trackerApply st exchangeId newState = (st, false))
  ∧ (∀ prev, alistLookup exchangeId st = some prev → prev ≠ newState →
      trackerApply st exchangeId newState
        = (alistStore st exchangeId newState, true))
  ∧ (∀ (env : IssueEnv) (m : IssueCredMsg),
      m.credential_exchange_id = exchangeId → m.state = newState →
      alistLookup exchangeId st = some newState →
      handle_issue_credential env st m = (st, [], none))
  ∧ (∀ (env2 : IssueV2Env) (m2 : IssueV2Msg),
      m2.cred_ex_id = exchangeId → m2.state = newState →
      alistLookup exchangeId st = some newState →
      handle_issue_credential_v2_0 env2 st m2 = (st, [], none)) := by
  refine ⟨?_, ?_, ?_, ?_, ?_⟩
  · intro h
    simp [trackerApply, h]
  · intro h
    simp [trackerApply, h]
  · intro prev h hne
    simp [trackerApply, h, hne]
  · intro env m h1 h2 h3
    subst h1
    subst h2
    simp [handle_issue_credential, trackerApply, h3]
  · intro env2 m2 h1 h2 h3
    subst h1
    subst h2
    simp [handle_issue_credential_v2_0, trackerApply, h3]

/-- Witness for C1 at concrete inputs exercising all three lookup cases
and both handlers. -/
theorem C1_tracker_apply_contract_witness :
    trackerApply [("e1", "s1")] "e2" "s2"
      = (alistStore [("e1", "s1")] "e2" "s2", true)
  ∧ trackerApply [("e1", "s1")] "e1" "s1" = ([("e1", "s1")], false)
  ∧ trackerApply [("e1", "s1")] "e1" "s2"
      = (alistStore [("e1", "s1")] "e1" "s2", true)
  ∧ handle_issue_credential ⟨[], false⟩ [("e1", "s1")] ⟨"s1", "e1", none, none⟩
      = ([("e1", "s1")], [], none)
  ∧ handle_issue_credential_v2_0 ⟨"did:key:z1"⟩ [("e1", "s1")]
        ⟨"s1", "e1", false, false⟩
      = ([("e1", "s1")], [], none) :=
  ⟨(C1_tracker_apply_contract [("e1", "s1")] "e2" "s2").1 (by decide),
   (C1_tracker_apply_contract [("e1", "s1")] "e1" "s1").2.1 (by decide),
   (C1_tracker_apply_contract [("e1", "s1")] "e1" "s2").2.2.1 "s1" (by decide)
     (by decide),
   (C1_tracker_apply_contract [("e1", "s1")] "e1" "s1").2.2.2.1 ⟨[], false⟩
     ⟨"s1", "e1", none, none⟩ rfl rfl (by decide),
   (C1_tracker_apply_contract [("e1", "s1")] "e1" "s1").2.2.2.2 ⟨"did:key:z1"⟩
     ⟨"s1", "e1", false, false⟩ rfl rfl (by decide)⟩

/-- Environment used by the C2 counterexample: empty wallet, no transport
failures. -/
def c2PresEnv : PresEnv := ⟨[], false, false⟩

/-- Message used by the C2 counterexample: a request_received presentation
event with one requested attribute referent. -/
def c2PresMsg : PresentProofMsg := ⟨"request_received", "pe1", ⟨["attr1"], []⟩⟩

/-- C2 counterexample: handle_present_proof never consults the Exchange
State Tracker, so delivering the same (exchangeId, state) presentation
event twice runs the side-effecting body twice: the first delivery leaves
cred_state unchanged and emits the send-presentation command, and the
second identical delivery emits it again instead of being a no-op. -/
theorem C2_counterexample :
    (handle_present_proof c2PresEnv [] c2PresMsg).1 = []
  ∧ Command.sendPresentation "pe1" ⟨[], [], [("attr1", "my self-attested value")]⟩
      ∈ (handle_present_proof c2PresEnv [] c2PresMsg).2.1
  ∧ handle_present_proof c2PresEnv
        ((handle_present_proof c2PresEnv [] c2PresMsg).1) c2PresMsg
      = handle_present_proof c2PresEnv [] c2PresMsg := by
  refine ⟨?_, ?_, rfl⟩ <;> decide

/-- C2 amended: only the credential-issuance handlers route events through
the Exchange State Tracker before their side-effecting bodies; for them a
second delivery of the same (exchangeId, state) event emits no commands
and leaves the stored state unchanged, so the side-effecting body runs at
most once.  The presentation handlers perform no such deduplication. -/
theorem C2_issue_handlers_dedup_second_delivery (env : IssueEnv)
    (st : CredState) (m : IssueCredMsg) (env2 : IssueV2Env) (st2 : CredState)
    (m2 : IssueV2Msg) :
    handle_issue_credential env (handle_issue_credential env st m).1 m
      = ((handle_issue_credential env st m).1, [], none)
  ∧ handle_issue_credential_v2_0 env2
        (handle_issue_credential_v2_0 env2 st2 m2).1 m2
      = ((handle_issue_credential_v2_0 env2 st2 m2).1, [], none) := by
  constructor
  · have h1 : alistLookup m.credential_exchange_id
        (handle_issue_credential env st m).1 = some m.state := by
      rw [handle_issue_credential_fst]
      exact trackerApply_fst_lookup st m.credential_exchange_id m.state
    generalize hq : (handle_issue_credential env st m).1 = q at h1 ⊢
    simp [handle_issue_credential, trackerApply, h1]
  · have h1 : alistLookup m2.cred_ex_id
        (handle_issue_credential_v2_0 env2 st2 m2).1 = some m2.state := by
      rw [handle_issue_credential_v2_0_fst]
      exact trackerApply_fst_lookup st2 m2.cred_ex_id m2.state
    generalize hq : (handle_issue_credential_v2_0 env2 st2 m2).1 = q at h1 ⊢
    simp [handle_issue_credential_v2_0, trackerApply, h1]

/-- C3: in the attribute-based section of the Selection Algorithm, the
revealed map lists exactly the matched requested referents in
request-iteration order, the first recorded referent carries revealFlag
false and every later one carries revealFlag true, and the self-attested
map lists exactly the unmatched referents with the placeholder literal -
so an unmatched referent never appears in revealed (the claim also
assumes at least two satisfied referents; the statement holds without
that restriction). -/
theorem C3_revealed_flag_asymmetry (credentials : List CredRow)
    (preq : PresReqIndy) :
    (selectIndy credentials preq).requested_attributes.map (fun x => x.1)
      = preq.requested_attributes.filter
          (fun r =>
            (alistLookup r (groupByReft (sortByTimestampDesc credentials))).isSome)
  ∧ (∀ x ∈ (selectIndy credentials preq).requested_attributes.head?,
      x.2.2 = false)
  ∧ (∀ x ∈ (selectIndy credentials preq).requested_attributes.tail,
      x.2.2 = true)
  ∧ (selectIndy credentials preq).self_attested_attributes
      = (preq.requested_attributes.filter
          (fun r =>
            (alistLookup r (groupByReft (sortByTimestampDesc credentials))).isNone)).map
          (fun r => (r, "my self-attested value")) := by
  refine ⟨?_, ?_, ?_, ?_⟩ <;> simp only [selectIndy]
  · exact buildAttrsG_keys _ _ _ _
  · exact buildAttrsG_head_flag _ _ _ _
  · exact buildAttrsG_tail_flags _ _ _ _
  · exact buildAttrsG_self_attested _ _ _ _

/-- Held credentials for the C3 witness: two rows each satisfying one
referent. -/
def c3Creds : List CredRow := [⟨"c1", 5, ["r1"]⟩, ⟨"c2", 3, ["r2"]⟩]

/-- Request for the C3 witness: two satisfied referents and one
unsatisfied referent. -/
def c3Preq : PresReqIndy := ⟨["r1", "r2", "r3"], []⟩

/-- Witness for C3 at a concrete request with two satisfied referents:
the first match carries revealFlag false, the later one revealFlag
true. -/
theorem C3_revealed_flag_asymmetry_witness :
    (("r1", "c1", false) ∈ (selectIndy c3Creds c3Preq).requested_attributes.head?)
  ∧ ("r1", ("c1", false)).2.2 = false
  ∧ (("r2", "c2", true) ∈ (selectIndy c3Creds c3Preq).requested_attributes.tail)
  ∧ ("r2", ("c2", true)).2.2 = true :=
  ⟨by decide,
   (C3_revealed_flag_asymmetry c3Creds c3Preq).2.1 _ (by decide),
   by decide,
   (C3_revealed_flag_asymmetry c3Creds c3Preq).2.2.1 _ (by decide)⟩

/-- C4: the attribute-based candidates are sorted by ordering key
descending before the first-seen-wins grouping, so of two credentials
with keys 100 and 200 that both satisfy both requested referents, the
one with key 200 is selected for both. -/
theorem C4_newest_credential_selected (r1 r2 : String) (c1 c2 : CredRow)
    (h1 : c1.timestamp = 100) (h2 : c2.timestamp = 200)
    (hr1 : c1.presentation_referents = [r1, r2])
    (hr2 : c2.presentation_referents = [r1, r2]) :
    alistLookup r1 (groupByReft (sortByTimestampDesc [c1, c2])) = some c2
  ∧ alistLookup r2 (groupByReft (sortByTimestampDesc [c1, c2])) = some c2 := by
  have hsort : sortByTimestampDesc [c1, c2] = [c2, c1] := by
    simp [sortByTimestampDesc, insertDesc, h1, h2]
  rw [hsort]
  by_cases hr : r2 = r1
  · subst hr
    simp [groupByReft, groupByReftG, groupRowG, hr1, hr2, alistLookup]
  · simp [groupByReft, groupByReftG, groupRowG, hr1, hr2, alistLookup, hr,
      Ne.symm hr]

/-- Witness for C4 at the scenario of the spec: two credentials with
ordering keys 100 and 200, both satisfying both referents; the key-200
credential is selected for both. -/
theorem C4_newest_credential_selected_witness :
    alistLookup "attr_name_uuid"
        (groupByReft (sortByTimestampDesc
          [⟨"cred100", 100, ["attr_name_uuid", "attr_date_uuid"]⟩,
           ⟨"cred200", 200, ["attr_name_uuid", "attr_date_uuid"]⟩]))
      = some ⟨"cred200", 200, ["attr_name_uuid", "attr_date_uuid"]⟩
  ∧ alistLookup "attr_date_uuid"
        (groupByReft (sortByTimestampDesc
          [⟨"cred100", 100, ["attr_name_uuid", "attr_date_uuid"]⟩,
           ⟨"cred200", 200, ["attr_name_uuid", "attr_date_uuid"]⟩]))
      = some ⟨"cred200", 200, ["attr_name_uuid", "attr_date_uuid"]⟩ :=
  C4_newest_credential_selected "attr_name_uuid" "attr_date_uuid"
    ⟨"cred100", 100, ["attr_name_uuid", "attr_date_uuid"]⟩
    ⟨"cred200", 200, ["attr_name_uuid", "attr_date_uuid"]⟩
    rfl rfl rfl rfl

/-- C5: with revocation disabled, whenever request_proof produces an
outbound request, that request carries no non-revocation interval field
at top level, on any requested attribute, or on any requested predicate,
whatever intervals the inbound request carried. -/
theorem C5_revocation_stripping (cred_type : String) (now : Nat)
    (explicit_revoc_required : Bool) (proof_request : ProofRequestIn)
    (out : IndyProofRequest)
    (h : (request_proof cred_type false now explicit_revoc_required
          proof_request).1 = some out) :
    hasNoInterval out = true := by
  by_cases h1 : cred_type = "indy"
  · simp only [request_proof, h1, if_true] at h
    simp only [Option.some.injEq] at h
    subst h
    simp [request_proof_indy, hasNoInterval, List.all_eq_true]
  · by_cases h2 : cred_type = "json-ld" <;> simp [request_proof, h1, h2] at h

/-- Inbound proof request for the C5 witness, carrying a non-revocation
interval at top level, on its attribute referent and on its predicate
referent. -/
def c5ProofRequest : ProofRequestIn :=
  { name := some "Proof of Education"
    version := some "1.0"
    requested_attributes := [("attr1_referent", ⟨["degree schema"], some ⟨55⟩⟩)]
    requested_predicates := [("pred1_referent", ⟨["birthdate"], some ⟨66⟩⟩)]
    non_revoked := some ⟨77⟩ }

/-- Witness for C5: the outbound request built from an inbound request
with intervals everywhere has none left. -/
theorem C5_revocation_stripping_witness :
    hasNoInterval (request_proof_indy false 99 false c5ProofRequest) = true :=
  C5_revocation_stripping "indy" 99 false c5ProofRequest
    (request_proof_indy false 99 false c5ProofRequest) rfl

/-- C6 counterexample: a record whose type tag is a substring of the FIRST
declared schema uri but not of the last is rejected by
check_input_descriptor_record_id and bound to no descriptor, although the
tag matches one of the declared uris: the per-uri reset of the result
without an outer-loop break makes only the last uri count. -/
theorem C6_counterexample :
    check_input_descriptor_record_id ["s:a", "s:b"] ["s:a"] = false
  ∧ substrOf "s:a" "s:a" = true
  ∧ difRecordIds [⟨"d1", ["s:a", "s:b"]⟩] [⟨"rec1", ["s:a"], "2023"⟩] = [] := by
  refine ⟨?_, ?_, ?_⟩ <;> decide

/-- C6 amended: the matching test of the linked-data section accepts a
candidate exactly when some typeTags member is a substring of the LAST of
the declared schema uris (and rejects every candidate of a descriptor
with no uris); the binding of the first accepted candidate per descriptor
is unchanged. -/
theorem C6_last_uri_matching (uris types : List String) :
    check_input_descriptor_record_id uris types
      = match uris.getLast? with
        | none => false
        | some u => types.any (fun t => substrOf t u) := by
  unfold check_input_descriptor_record_id
  rw [checkFold_eq]
  cases hgl : uris.getLast? with
  | none => rfl
  | some u => cases types <;> simp

/-- C7: once a terminal or reuse connection event has resolved the
readiness future, further reuse, reuse-accepted and terminal connection
events neither raise (the set_result call sits behind a not-done guard)
nor change the resolved future. -/
theorem C7_readiness_resolved_once (endorser_role : Option String)
    (st : ConnState) (m m2 : ConnMsg) (b : Bool)
    (h : st.connection_ready = some (some b)) :
    handle_connection_reuse st m = Except.ok st
  ∧ handle_connection_reuse_accepted st m = Except.ok st
  ∧ ∃ st2 acts, handle_connections endorser_role st m2 = Except.ok (st2, acts)
      ∧ st2.connection_ready = st.connection_ready := by
  obtain ⟨cid, ready⟩ := st
  simp only at h
  subst h
  refine ⟨rfl, rfl, ?_⟩
  simp only [handle_connections, Option.isSome_some, if_true]
  split_ifs <;> exact ⟨_, _, rfl, rfl⟩

/-- Witness for C7: a second terminal event and reuse events against an
already-resolved readiness future leave everything unchanged. -/
theorem C7_readiness_resolved_once_witness :
    handle_connection_reuse ⟨some "conn1", some (some true)⟩
        ⟨"conn2", none, "completed"⟩
      = Except.ok ⟨some "conn1", some (some true)⟩
  ∧ handle_connection_reuse_accepted ⟨some "conn1", some (some true)⟩
        ⟨"conn2", none, "completed"⟩
      = Except.ok ⟨some "conn1", some (some true)⟩
  ∧ ∃ st2 acts, handle_connections none ⟨some "conn1", some (some true)⟩
        ⟨"conn1", none, "completed"⟩ = Except.ok (st2, acts)
      ∧ st2.connection_ready = (ConnState.mk (some "conn1") (some (some true))).connection_ready :=
  C7_readiness_resolved_once none ⟨some "conn1", some (some true)⟩
    ⟨"conn2", none, "completed"⟩ ⟨"conn1", none, "completed"⟩ true rfl

/-- C8: a transport failure (ClientError) on the issue POST of the legacy
issuer request_received handling or on the send-presentation POST of the
legacy prover request_received handling is caught at the call site: the
failing run is observably identical to the successful run (in particular
the stored exchange state is unchanged by the failure), the handler
returns without a raised error, the failing command is attempted at most
once (no retry), and nothing is issued after it. -/
theorem C8_transport_failure_swallowed (env : IssueEnv) (st : CredState)
    (m : IssueCredMsg) (penv : PresEnv) (pst : CredState)
    (pm : PresentProofMsg) (cdi : String) (attrs : List (String × String))
    (hm : m.state = "request_received")
    (hcd : m.credential_definition_id = some cdi)
    (hat : alistLookup cdi env.cred_attrs = some attrs)
    (hp : pm.state = "request_received") :
    handle_issue_credential { env with issueFails := true } st m
      = handle_issue_credential { env with issueFails := false } st m
  ∧ (handle_issue_credential { env with issueFails := true } st m).2.2 = none
  ∧ (∀ c ∈ (handle_issue_credential { env with issueFails := true } st m).2.1,
      c = Command.issueCredential m.credential_exchange_id attrs)
  ∧ (handle_issue_credential { env with issueFails := true } st m).2.1.length ≤ 1
  ∧ handle_present_proof { penv with sendFails := true } pst pm
      = handle_present_proof { penv with sendFails := false } pst pm
  ∧ (handle_present_proof { penv with sendFails := true } pst pm).1 = pst
  ∧ (handle_present_proof { penv with sendFails := true } pst pm).2.2 = none
  ∧ (handle_present_proof { penv with sendFails := true } pst pm).2.1.countP
        (fun c => match c with
          | Command.sendPresentation _ _ => true
          | _ => false) ≤ 1 := by
  rcases hta : trackerApply st m.credential_exchange_id "request_received"
    with ⟨st1, fr⟩
  have hissue : ∀ b : Bool,
      handle_issue_credential { env with issueFails := b } st m
        = (st1,
           if fr then [Command.issueCredential m.credential_exchange_id attrs]
           else [],
           none) := by
    intro b
    cases fr <;> cases b <;>
      simp [handle_issue_credential, hta, hm, hcd, hat]
  have hpres : ∀ b : Bool,
      handle_present_proof { penv with sendFails := b } pst pm
        = (pst,
           if penv.getFails then
             [Command.getCredentials pm.presentation_exchange_id]
           else
             [Command.getCredentials pm.presentation_exchange_id,
              Command.sendPresentation pm.presentation_exchange_id
                (selectIndy penv.credentials pm.presentation_request)],
           none) := by
    intro b
    by_cases hg : penv.getFails <;> cases b <;>
      simp [handle_present_proof, hp, hg]
  refine ⟨(hissue true).trans (hissue false).symm, ?_, ?_, ?_,
    (hpres true).trans (hpres false).symm, ?_, ?_, ?_⟩
  · rw [hissue true]
  · rw [hissue true]
    cases fr <;> simp
  · rw [hissue true]
    cases fr <;> simp
  · rw [hpres true]
  · rw [hpres true]
  · rw [hpres true]
    by_cases hg : penv.getFails <;> simp [hg, List.countP_cons]

/-- Witness for C8 at a concrete exchange: the failing runs raise
nothing. -/
theorem C8_transport_failure_swallowed_witness :
    (handle_issue_credential
        { cred_attrs := [("cd1", [("name", "alice")])], issueFails := true } []
        ⟨"request_received", "ce1", none, some "cd1"⟩).2.2 = none
  ∧ (handle_present_proof
        { credentials := [], getFails := false, sendFails := true } []
        ⟨"request_received", "pe9", ⟨[], []⟩⟩).2.2 = none :=
  ⟨(C8_transport_failure_swallowed
      ⟨[("cd1", [("name", "alice")])], false⟩ []
      ⟨"request_received", "ce1", none, some "cd1"⟩
      ⟨[], false, false⟩ [] ⟨"request_received", "pe9", ⟨[], []⟩⟩
      "cd1" [("name", "alice")] rfl rfl (by decide) rfl).2.1,
   (C8_transport_failure_swallowed
      ⟨[("cd1", [("name", "alice")])], false⟩ []
      ⟨"request_received", "ce1", none, some "cd1"⟩
      ⟨[], false, false⟩ [] ⟨"request_received", "pe9", ⟨[], []⟩⟩
      "cd1" [("name", "alice")] rfl rfl (by decide) rfl).2.2.2.2.2.2.1⟩

/-- C9: on a terminal connection event with an endorser role configured,
the set-endorser-role command is issued only after the role-dependent
sleep, and the delay of the author role (declaring TRANSACTION_AUTHOR,
the origin of transactions) is strictly longer than the delay of the
endorser role (declaring TRANSACTION_ENDORSER, the approver): 2.0 seconds
against 1.0. -/
theorem C9_endorser_role_delay_ordering (cid : String) (mstate : Option String) :
    handle_connections (some "author") ⟨some cid, some none⟩
        ⟨cid, mstate, "completed"⟩
      = Except.ok (⟨some cid, some (some true)⟩,
          [ConnAction.sleep 2,
           ConnAction.setEndorserRole (some cid) "TRANSACTION_AUTHOR"])
  ∧ handle_connections (some "endorser") ⟨some cid, some none⟩
        ⟨cid, mstate, "completed"⟩
      = Except.ok (⟨some cid, some (some true)⟩,
          [ConnAction.sleep 1,
           ConnAction.setEndorserRole (some cid) "TRANSACTION_ENDORSER"])
  ∧ (1 : ℚ) < 2 := by
  refine ⟨?_, ?_, by norm_num⟩ <;>
  · by_cases hm : mstate = some "invitation" <;>
      simp [handle_connections, endorserActions, setFutResult, hm]

/-- C10: a request-received multi-format presentation event whose payload
carries neither the attribute-based nor the linked-data request format
raises before any admin call: no command at all, in particular no
send-presentation, is emitted. -/
theorem C10_formatless_request_raises (env : PresV2Env) (m : PresV2Msg)
    (hs : m.state = "request-received")
    (hi : m.pres_request_indy = none) (hd : m.pres_request_dif = none) :
    handle_present_proof_v2_0 env m
      = ([], some "Invalid presentation request received") := by
  simp [handle_present_proof_v2_0, hs, hi, hd]

/-- Witness for C10 at a concrete format-less request-received event. -/
theorem C10_formatless_request_raises_witness :
    handle_present_proof_v2_0 ⟨[], false⟩ ⟨"request-received", "px1", none, none⟩
      = ([], some "Invalid presentation request received") :=
  C10_formatless_request_raises ⟨[], false⟩
    ⟨"request-received", "px1", none, none⟩ rfl rfl rfl

end DemoDpp
